import Mathlib

/-
Verification of the `useSessionStorage` hook
(src/packages/usehooks-ts/src/useSessionStorage/useSessionStorage.ts).

The hook is embedded shallowly:
- JavaScript runtime values are modelled by the inductive type `JSVal`
  (numbers are restricted to integers; the claims under study do not
  involve floating point, and none of the statements below depends on
  non-integral numerics).
- `JSON.stringify` and `JSON.parse` are modelled by executable functions
  `jsonStringify` and `jsParse` over `JSVal`.  Strings are escaped for the
  quote and backslash characters, numeric literals are decimal integers;
  this is the fragment the claims exercise.
- The browser environment (window availability, sessionStorage contents,
  and failure of getItem/setItem) is modelled by `Env`; operations that
  can throw return `Except String`.
- `serializer`, `deserializer`, `readValue`, `setValue` and
  `handleStorageChange` are translated statement by statement from the
  source.  try/catch blocks become matches on `Except` results, and the
  truthiness tests of the source (`raw ? ... : ...` on a string,
  `event?.key && ...`) become explicit emptiness/absence tests, since a
  JS string is falsy exactly when it is empty.
-/

set_option autoImplicit false

namespace UseSessionStorage

/-- JavaScript values, as far as the hook manipulates them.  `map` and
`set` model the ES `Map` (with string keys, as consumed by
`Object.fromEntries`) and `Set` containers; `obj` and `arr` are plain
objects and arrays as produced by `JSON.parse`. -/
inductive JSVal where
  | undef
  | null
  | bool (b : Bool)
  | num (n : Int)
  | str (s : String)
  | arr (elems : List JSVal)
  | obj (fields : List (String × JSVal))
  | map (entries : List (String × JSVal))
  | set (elems : List JSVal)

mutual
def beqJSVal : JSVal → JSVal → Bool
  | .undef, .undef => true
  | .null, .null => true
  | .bool a, .bool b => a == b
  | .num a, .num b => a == b
  | .str a, .str b => a == b
  | .arr a, .arr b => beqJSList a b
  | .obj a, .obj b => beqJSFields a b
  | .map a, .map b => beqJSFields a b
  | .set a, .set b => beqJSList a b
  | _, _ => false

def beqJSList : List JSVal → List JSVal → Bool
  | [], [] => true
  | a :: as, b :: bs => beqJSVal a b && beqJSList as bs
  | _, _ => false

def beqJSFields : List (String × JSVal) → List (String × JSVal) → Bool
  | [], [] => true
  | (ka, va) :: as, (kb, vb) :: bs => ka == kb && beqJSVal va vb && beqJSFields as bs
  | _, _ => false
end

mutual
theorem beqJSVal_iff : ∀ a b : JSVal, beqJSVal a b = true ↔ a = b
  | .undef, b => by cases b <;> simp [beqJSVal]
  | .null, b => by cases b <;> simp [beqJSVal]
  | .bool x, b => by cases b <;> simp [beqJSVal]
  | .num x, b => by cases b <;> simp [beqJSVal]
  | .str x, b => by cases b <;> simp [beqJSVal]
  | .arr xs, b => by
      cases b <;> simp [beqJSVal]
      exact beqJSList_iff xs _
  | .obj fs, b => by
      cases b <;> simp [beqJSVal]
      exact beqJSFields_iff fs _
  | .map fs, b => by
      cases b <;> simp [beqJSVal]
      exact beqJSFields_iff fs _
  | .set xs, b => by
      cases b <;> simp [beqJSVal]
      exact beqJSList_iff xs _

theorem beqJSList_iff : ∀ a b : List JSVal, beqJSList a b = true ↔ a = b
  | [], b => by cases b <;> simp [beqJSList]
  | x :: xs, b => by
      cases b with
      | nil => simp [beqJSList]
      | cons y ys =>
        simp only [beqJSList, Bool.and_eq_true, List.cons.injEq]
        exact and_congr (beqJSVal_iff x y) (beqJSList_iff xs ys)

theorem beqJSFields_iff : ∀ a b : List (String × JSVal), beqJSFields a b = true ↔ a = b
  | [], b => by cases b <;> simp [beqJSFields]
  | (k, v) :: xs, b => by
      cases b with
      | nil => simp [beqJSFields]
      | cons y ys =>
        obtain ⟨ky, vy⟩ := y
        simp only [beqJSFields, Bool.and_eq_true, List.cons.injEq, Prod.mk.injEq, beq_iff_eq]
        rw [beqJSVal_iff v vy, beqJSFields_iff xs ys, and_assoc]
end

instance : DecidableEq JSVal := fun a b => decidable_of_iff _ (beqJSVal_iff a b)

/-- Decimal digit character. -/
def digitChar (d : Nat) : Char := Char.ofNat (48 + d)

/-- Decimal rendering of a natural number (fuel-based so that the kernel
can evaluate it; the fuel `n + 1` always suffices). -/
def natToChars : Nat → Nat → List Char
  | 0, _ => []
  | fuel + 1, n =>
    if n < 10 then [digitChar n]
    else natToChars fuel (n / 10) ++ [digitChar (n % 10)]

def natToString (n : Nat) : String := ⟨natToChars (n + 1) n⟩

/-- Decimal rendering of an integer, as `String(n)` produces in JS. -/
def intToString : Int → String
  | .ofNat m => natToString m
  | .negSucc m => "-" ++ natToString (m + 1)

/-- JSON string escaping for the two characters the model escapes. -/
def escapeChar (c : Char) : List Char :=
  if c = '"' || c = '\\' then ['\\', c] else [c]

def escapeString (s : String) : String :=
  ⟨s.data.foldr (fun c acc => escapeChar c ++ acc) []⟩

def quoteString (s : String) : String := "\"" ++ escapeString s ++ "\""

mutual
/-- Model of `JSON.stringify`; `none` is the JS value `undefined`, which
`JSON.stringify` yields for `undefined` at top level.  `Map` and `Set`
objects have no own enumerable properties and stringify as an empty
object. -/
def stringifyVal : JSVal → Option String
  | .undef => none
  | .null => some "null"
  | .bool b => some (cond b "true" "false")
  | .num n => some (intToString n)
  | .str s => some (quoteString s)
  | .arr xs => some ("[" ++ stringifyElems xs ++ "]")
  | .obj fs => some ("\x7b" ++ stringifyFields fs ++ "\x7d")
  | .map _ => some "\x7b\x7d"
  | .set _ => some "\x7b\x7d"

/-- Comma-separated array body; an `undefined` element renders as `null`. -/
def stringifyElems : List JSVal → String
  | [] => ""
  | [x] => (stringifyVal x).getD "null"
  | x :: rest => (stringifyVal x).getD "null" ++ "," ++ stringifyElems rest

/-- Comma-separated object body; fields whose value stringifies to
`undefined` are dropped. -/
def stringifyFields : List (String × JSVal) → String
  | [] => ""
  | (k, v) :: rest =>
    match stringifyVal v with
    | none => stringifyFields rest
    | some sv =>
      match stringifyFields rest with
      | "" => quoteString k ++ ":" ++ sv
      | srest => quoteString k ++ ":" ++ sv ++ "," ++ srest
end

def jsonStringify (v : JSVal) : Option String := stringifyVal v

/-- Whitespace skipping for the JSON reader. -/
def skipWs : List Char → List Char
  | c :: cs => if c = ' ' || c = '\n' || c = '\t' || c = '\r' then skipWs cs else c :: cs
  | [] => []

/-- Body of a JSON string literal, after the opening quote; understands
the `\"` and `\\` escapes (the ones the writer emits). -/
def readStrChars : List Char → Option (List Char × List Char)
  | [] => none
  | '"' :: rest => some ([], rest)
  | '\\' :: '"' :: rest =>
    match readStrChars rest with
    | some (cs, r) => some ('"' :: cs, r)
    | none => none
  | '\\' :: '\\' :: rest =>
    match readStrChars rest with
    | some (cs, r) => some ('\\' :: cs, r)
    | none => none
  | '\\' :: _ :: _ => none
  | c :: rest =>
    match readStrChars rest with
    | some (cs, r) => some (c :: cs, r)
    | none => none

def digitsToNat (ds : List Char) : Nat :=
  ds.foldl (fun a c => a * 10 + (c.toNat - 48)) 0

/-- Reads a run of decimal digits (at least one). -/
def readNatDigits (cs : List Char) : Option (Nat × List Char) :=
  match cs.takeWhile Char.isDigit with
  | [] => none
  | ds => some (digitsToNat ds, cs.dropWhile Char.isDigit)

/-- Work items for the JSON reader: a value, the tail of an array (after
the opening bracket, first element not yet consumed), or the tail of an
object. -/
inductive PWork where
  | pval
  | pelems
  | pmembers

/-- Fuel-based JSON reader.  In `pelems` mode the result is `.arr` of the
remaining elements, in `pmembers` mode `.obj` of the remaining fields.
`JSON.parse` produces only `null`, booleans, numbers, strings, arrays and
plain objects, never `undefined`, `Map` or `Set`. -/
def parseF : Nat → PWork → List Char → Option (JSVal × List Char)
  | 0, _, _ => none
  | fuel + 1, .pval, cs =>
    match skipWs cs with
    | 'n' :: 'u' :: 'l' :: 'l' :: rest => some (.null, rest)
    | 't' :: 'r' :: 'u' :: 'e' :: rest => some (.bool true, rest)
    | 'f' :: 'a' :: 'l' :: 's' :: 'e' :: rest => some (.bool false, rest)
    | '"' :: rest =>
      match readStrChars rest with
      | some (cs2, r) => some (.str ⟨cs2⟩, r)
      | none => none
    | '-' :: rest =>
      match readNatDigits rest with
      | some (n, r) => some (.num (-(n : Int)), r)
      | none => none
    | '[' :: rest =>
      match skipWs rest with
      | ']' :: r2 => some (.arr [], r2)
      | r2 => parseF fuel .pelems r2
    | '\x7b' :: rest =>
      match skipWs rest with
      | '\x7d' :: r2 => some (.obj [], r2)
      | r2 => parseF fuel .pmembers r2
    | c :: rest =>
      if c.isDigit then
        match readNatDigits (c :: rest) with
        | some (n, r) => some (.num (n : Int), r)
        | none => none
      else none
    | [] => none
  | fuel + 1, .pelems, cs =>
    match parseF fuel .pval cs with
    | some (v, r) =>
      match skipWs r with
      | ',' :: r2 =>
        match parseF fuel .pelems r2 with
        | some (.arr xs, r3) => some (.arr (v :: xs), r3)
        | _ => none
      | ']' :: r2 => some (.arr [v], r2)
      | _ => none
    | none => none
  | fuel + 1, .pmembers, cs =>
    match skipWs cs with
    | '"' :: rest =>
      match readStrChars rest with
      | some (kcs, r) =>
        match skipWs r with
        | ':' :: r2 =>
          match parseF fuel .pval r2 with
          | some (v, r3) =>
            match skipWs r3 with
            | ',' :: r4 =>
              match parseF fuel .pmembers r4 with
              | some (.obj fs, r5) => some (.obj ((⟨kcs⟩, v) :: fs), r5)
              | _ => none
            | '\x7d' :: r4 => some (.obj [(⟨kcs⟩, v)], r4)
            | _ => none
          | none => none
        | _ => none
      | none => none
    | _ => none

/-- Model of `JSON.parse`: `none` models a thrown `SyntaxError`.  The
fuel bound `4 * length + 4` dominates the reader's recursion depth for
every input it can accept. -/
def jsParse (s : String) : Option JSVal :=
  match parseF (4 * s.length + 4) .pval s.data with
  | some (v, rest) =>
    match skipWs rest with
    | [] => some v
    | _ => none
  | none => none

example : jsonStringify (.num 5) = some "5" := by decide
example : jsonStringify (.num (-12)) = some "-12" := by decide
example : jsonStringify .undef = none := by decide
example : jsonStringify (.arr [.num 1, .str "a", .undef]) = some "[1,\"a\",null]" := by decide
example : jsonStringify (.obj [("a", .num 1), ("b", .undef), ("c", .bool true)])
    = some "\x7b\"a\":1,\"c\":true\x7d" := by decide
example : jsParse "5" = some (.num 5) := by decide
example : jsParse "-3" = some (.num (-3)) := by decide
example : jsParse "null" = some .null := by decide
example : jsParse "\"a\"" = some (.str "a") := by decide
example : jsParse "[1,2]" = some (.arr [.num 1, .num 2]) := by decide
example : jsParse "\x7b\"a\":1\x7d" = some (.obj [("a", .num 1)]) := by decide
example : jsParse "oops" = none := by decide
example : jsParse "" = none := by decide
example : jsParse "undefined" = none := by decide
example : jsParse " [ 1 , \"x\" ] " = some (.arr [.num 1, .str "x"]) := by decide

/-!
## The browser environment

`Env` models the parts of the browser the hook touches: whether `window`
exists (`IS_SERVER` in the source is `typeof window === 'undefined'`),
the contents of `window.sessionStorage`, and whether `getItem`/`setItem`
throw (quota exceeded, access denied).  The storage is an association
list in which the most recent binding of a key comes first.
-/

structure Env where
  window : Bool
  storage : List (String × String)
  getThrows : Bool
  setThrows : Bool
deriving DecidableEq

/-- Source: `const IS_SERVER = typeof window === 'undefined'`. -/
def IS_SERVER (env : Env) : Bool := !env.window

/-- First binding of `k` in the association list. -/
def storeGet (st : List (String × String)) (k : String) : Option String :=
  match st with
  | [] => none
  | (a, b) :: rest => if a = k then some b else storeGet rest k

/-- `window.sessionStorage.getItem(key)`: returns the stored string or
`null`, or throws.  The hook only calls it when `window` exists. -/
def envGetItem (env : Env) (k : String) : Except String (Option String) :=
  if env.getThrows then .error "getItem failed"
  else .ok (storeGet env.storage k)

/-- `window.sessionStorage.setItem(key, value)`: accessing `window`
itself throws a ReferenceError when no window exists (the server case,
since `setValue` reaches this statement without an early return), and
`setItem` itself may throw. -/
def envSetItem (env : Env) (k s : String) : Except String Env :=
  if env.window = false then .error "window is not defined"
  else if env.setThrows then .error "setItem failed"
  else .ok { env with storage := (k, s) :: env.storage }

/-- `setItem` coerces a non-string argument with `String()`; the only
non-string the serializer can produce is the JS value `undefined`
(`JSON.stringify(undefined)`), and `String(undefined)` is the literal
text `undefined`. -/
def coerceSetItemArg (o : Option String) : String :=
  match o with
  | some s => s
  | none => "undefined"

/-!
## The hook's configuration and state
-/

/-- Source: `initialValue: T | (() => T)`; `instanceof Function`
distinguishes the two shapes. -/
inductive InitialValue where
  | value (v : JSVal)
  | producer (f : Unit → JSVal)

/-- The evaluation `initialValue instanceof Function ? initialValue() :
initialValue` performed at each use site. -/
def evalInitial : InitialValue → JSVal
  | .value v => v
  | .producer f => f ()

/-- Source `Options<T>`: optional custom codec.  A custom function may
throw, hence the `Except`. -/
structure Options where
  serializer : Option (JSVal → Except String String)
  deserializer : Option (String → Except String JSVal)

/-- No options supplied (the default `options: Options<T> = {}`). -/
def defaultOpts : Options := ⟨none, none⟩

/-- Source: argument of `setValue`, `T | ((prev : T) => T)`;
`value instanceof Function` distinguishes the two shapes, and an updater
function may throw. -/
inductive SetStateAction where
  | value (v : JSVal)
  | updater (f : JSVal → Except String JSVal)

/-!
## The hook's functions, translated statement by statement
-/

/-- Source lines 54-71, `serializer`: use the custom serializer when
present; otherwise a `Map` serializes as `JSON.stringify(Object.fromEntries(value))`,
a `Set` as `JSON.stringify(Array.from(value))`, and anything else as
`JSON.stringify(value)`. -/
def serializer (opts : Options) (value : JSVal) : Except String (Option String) :=
  match opts.serializer with
  | some s =>
    match s value with
    | .ok out => .ok (some out)
    | .error e => .error e
  | none =>
    match value with
    | .map entries => .ok (jsonStringify (.obj entries))
    | .set elems => .ok (jsonStringify (.arr elems))
    | v => .ok (jsonStringify v)

/-- Source lines 73-97, `deserializer`: use the custom deserializer when
present; otherwise the literal text `undefined` short-circuits to the JS
value `undefined`, and a `JSON.parse` failure is caught and replaced by a
fresh evaluation of the initial value. -/
def deserializer (opts : Options) (initialValue : InitialValue) (value : String) :
    Except String JSVal :=
  match opts.deserializer with
  | some d => d value
  | none =>
    if value = "undefined" then .ok .undef
    else
      let defaultValue := evalInitial initialValue
      match jsParse value with
      | none => .ok defaultValue
      | some parsed => .ok parsed

/-- Source lines 101-117, `readValue`: on the server return the initial
value; otherwise `getItem` inside a try, with
`return raw ? deserializer(raw) : initialValueToUse` (a present empty
string is falsy and also yields the initial value), and any throw from
`getItem` or from the deserializer is caught and yields the initial
value. -/
def readValue (env : Env) (opts : Options) (initialValue : InitialValue) (key : String) :
    JSVal :=
  let initialValueToUse := evalInitial initialValue
  if IS_SERVER env then initialValueToUse
  else
    match envGetItem env key with
    | .error _ => initialValueToUse
    | .ok none => initialValueToUse
    | .ok (some raw) =>
      if raw = "" then initialValueToUse
      else
        match deserializer opts initialValue raw with
        | .ok v => v
        | .error _ => initialValueToUse

/-- `const newValue = value instanceof Function ? value(readValue()) : value`. -/
def resolveAction (env : Env) (opts : Options) (initialValue : InitialValue) (key : String) :
    SetStateAction → Except String JSVal
  | .value v => .ok v
  | .updater f => f (readValue env opts initialValue key)

/-- Result of one `setValue` call: the environment afterwards, the local
React state (`storedValue`) afterwards, the keys carried by dispatched
`session-storage` events, and how many `console.warn` calls ran. -/
structure WriteOut where
  env : Env
  storedValue : JSVal
  dispatched : List String
  warnings : Nat
deriving DecidableEq

/-- Source lines 121-144, `setValue`: on the server it only warns (no
early return), then the try block resolves the updater, serializes,
calls `setItem` (whose `window` access throws on the server), updates the
React state and dispatches a `session-storage` event carrying the key;
any throw is caught and logged, leaving state, storage and event stream
untouched. -/
def setValue (env : Env) (opts : Options) (initialValue : InitialValue) (key : String)
    (storedValue : JSVal) (action : SetStateAction) : WriteOut :=
  let serverWarn := if IS_SERVER env then 1 else 0
  match resolveAction env opts initialValue key action with
  | .error _ => ⟨env, storedValue, [], serverWarn + 1⟩
  | .ok newValue =>
    match serializer opts newValue with
    | .error _ => ⟨env, storedValue, [], serverWarn + 1⟩
    | .ok out =>
      match envSetItem env key (coerceSetItemArg out) with
      | .error _ => ⟨env, storedValue, [], serverWarn + 1⟩
      | .ok env2 => ⟨env2, newValue, [key], serverWarn⟩

/-- Source lines 151-159, `handleStorageChange`: the guard
`(event as StorageEvent)?.key && (event as StorageEvent).key !== key`
returns early (state unchanged) only when the event carries a truthy
(non-null, nonempty) key different from the bound key; otherwise the
handler re-reads and stores the result.  `eventKey = none` models an
event without a key (or with a null key). -/
def handleStorageChange (env : Env) (opts : Options) (initialValue : InitialValue)
    (key : String) (storedValue : JSVal) (eventKey : Option String) : JSVal :=
  match eventKey with
  | some k =>
    if k ≠ "" ∧ k ≠ key then storedValue
    else readValue env opts initialValue key
  | none => readValue env opts initialValue key

/-- A browser environment with an empty, healthy storage. -/
def envOk : Env := ⟨true, [], false, false⟩

example :
    setValue envOk defaultOpts (.value (.num 0)) "k" (.num 0) (.value (.num 5)) =
      ⟨⟨true, [("k", "5")], false, false⟩, .num 5, ["k"], 0⟩ := by decide

example :
    readValue ⟨true, [("k", "5")], false, false⟩ defaultOpts (.value (.num 0)) "k" =
      .num 5 := by decide

/-!
## Helper definitions and lemmas
-/

/-- What the default serializer produces (the three branches of the
source's `serializer` when no custom serializer is supplied). -/
def defaultSer (v : JSVal) : Option String :=
  match v with
  | .map entries => jsonStringify (.obj entries)
  | .set elems => jsonStringify (.arr elems)
  | v => jsonStringify v

theorem serializer_default_eq (v : JSVal) :
    serializer defaultOpts v = .ok (defaultSer v) := by
  cases v <;> rfl

/-- What the default deserializer produces (it never throws). -/
def deserializeDefault (initialValue : InitialValue) (raw : String) : JSVal :=
  if raw = "undefined" then .undef
  else
    match jsParse raw with
    | none => evalInitial initialValue
    | some parsed => parsed

theorem deserializer_default_eq (iv : InitialValue) (raw : String) :
    deserializer defaultOpts iv raw = .ok (deserializeDefault iv raw) := by
  by_cases h : raw = "undefined"
  · simp [deserializer, deserializeDefault, defaultOpts, h]
  · cases hp : jsParse raw <;>
      simp [deserializer, deserializeDefault, defaultOpts, h, hp]

/-- The value a read yields from a present raw string: the decoded value,
or the fresh initial value when decoding throws. -/
def decodeOrInit (opts : Options) (iv : InitialValue) (raw : String) : JSVal :=
  match deserializer opts iv raw with
  | .ok v => v
  | .error _ => evalInitial iv

/-- The raw text a successful default-codec write of `v` stores, after
`setItem`'s string coercion. -/
def defaultRaw (v : JSVal) : String := coerceSetItemArg (defaultSer v)

/-- The composition `decode ∘ store-coerce ∘ encode` under the default
codec: what a read immediately after a successful write of `v` yields. -/
def defaultRoundTrip (iv : InitialValue) (v : JSVal) : JSVal :=
  match serializer defaultOpts v with
  | .error _ => evalInitial iv
  | .ok out =>
    match deserializer defaultOpts iv (coerceSetItemArg out) with
    | .error _ => evalInitial iv
    | .ok w => w

theorem defaultRoundTrip_eq (iv : InitialValue) (v : JSVal) :
    defaultRoundTrip iv v = deserializeDefault iv (defaultRaw v) := by
  unfold defaultRoundTrip defaultRaw
  rw [serializer_default_eq]
  show (match deserializer defaultOpts iv (coerceSetItemArg (defaultSer v)) with
        | .error _ => evalInitial iv
        | .ok w => w) = _
  rw [deserializer_default_eq]

theorem mk_ne_empty_of_ne_nil (l : List Char) (h : l ≠ []) : (⟨l⟩ : String) ≠ "" :=
  fun he => h (congrArg String.data he)

theorem mk_cons_ne_empty (c : Char) (cs : List Char) : (⟨c :: cs⟩ : String) ≠ "" :=
  mk_ne_empty_of_ne_nil _ (List.cons_ne_nil c cs)

theorem natToChars_succ_ne_nil (fuel n : Nat) : natToChars (fuel + 1) n ≠ [] := by
  unfold natToChars
  split
  · exact List.cons_ne_nil _ _
  · intro h
    exact List.cons_ne_nil _ _ (List.append_eq_nil.mp h).2

theorem natToString_ne_empty (n : Nat) : natToString n ≠ "" :=
  mk_ne_empty_of_ne_nil _ (natToChars_succ_ne_nil n n)

theorem intToString_ne_empty (n : Int) : intToString n ≠ "" := by
  cases n with
  | ofNat m => exact natToString_ne_empty m
  | negSucc m => exact mk_cons_ne_empty '-' _

/-- `JSON.stringify` never returns the empty string. -/
theorem stringifyVal_ne_empty (v : JSVal) (t : String) (h : stringifyVal v = some t) :
    t ≠ "" := by
  cases v with
  | undef => exact nomatch h
  | null => rw [← Option.some.inj h]; decide
  | bool b => rw [← Option.some.inj h]; cases b <;> decide
  | num n => rw [← Option.some.inj h]; exact intToString_ne_empty n
  | str s => rw [← Option.some.inj h]; exact mk_cons_ne_empty '"' _
  | arr xs => rw [← Option.some.inj h]; exact mk_cons_ne_empty '[' _
  | obj fs => rw [← Option.some.inj h]; exact mk_cons_ne_empty '\x7b' _
  | map fs => rw [← Option.some.inj h]; decide
  | set xs => rw [← Option.some.inj h]; decide

/-- The raw text stored by a successful default-codec write is never
empty (so a subsequent read does not take the falsy-raw fallback). -/
theorem defaultRaw_ne_empty (v : JSVal) : defaultRaw v ≠ "" := by
  unfold defaultRaw coerceSetItemArg
  cases hs : defaultSer v with
  | none => decide
  | some t =>
    cases v <;> exact stringifyVal_ne_empty _ _ hs

theorem storeGet_cons_self (st : List (String × String)) (k s : String) :
    storeGet ((k, s) :: st) k = some s := by
  simp [storeGet]

theorem envSetItem_ok (env : Env) (k s : String) (hw : env.window = true)
    (hs : env.setThrows = false) :
    envSetItem env k s = .ok { env with storage := (k, s) :: env.storage } := by
  simp [envSetItem, hw, hs]

theorem setValue_value_ok (env : Env) (opts : Options) (iv : InitialValue) (key : String)
    (cur v : JSVal) (out : Option String) (env2 : Env)
    (h1 : serializer opts v = .ok out)
    (h2 : envSetItem env key (coerceSetItemArg out) = .ok env2)
    (hw : env.window = true) :
    setValue env opts iv key cur (.value v) = ⟨env2, v, [key], 0⟩ := by
  simp [setValue, resolveAction, h1, h2, IS_SERVER, hw]

theorem readValue_found (env : Env) (opts : Options) (iv : InitialValue) (key raw : String)
    (hw : env.window = true) (hg : env.getThrows = false)
    (hl : storeGet env.storage key = some raw) (hne : raw ≠ "") :
    readValue env opts iv key = decodeOrInit opts iv raw := by
  simp [readValue, decodeOrInit, envGetItem, IS_SERVER, hw, hg, hl, hne]

/-- Whether a value is an ES `Map` or `Set` (the two `instanceof` special
cases of the default serializer). -/
def isMapOrSet : JSVal → Bool
  | .map _ => true
  | .set _ => true
  | _ => false

/-- Decoding of `raw` fails: a custom deserializer throws on it, or the
default codec reaches `JSON.parse` and the parse throws. -/
def decodeFails (opts : Options) (raw : String) : Prop :=
  match opts.deserializer with
  | some d => ∃ e, d raw = .error e
  | none => raw ≠ "undefined" ∧ jsParse raw = none

/-- Environment of a server render: no `window`. -/
def envServer : Env := ⟨false, [], false, false⟩

/-- Environment whose `setItem` throws (e.g. quota exceeded). -/
def envSetFails : Env := ⟨true, [], false, true⟩

/-!
## Claim theorems
-/

/-- C2 (confirmed): if the updater resolution, the serializer, or the
backing-store `setItem` throws during `setValue`, then `setValue` logs a
warning and leaves the environment, the cached value and the event
stream unchanged; state is updated and the notification dispatched only
on the all-successes path. -/
theorem setValue_failure_is_noop (env : Env) (opts : Options) (iv : InitialValue)
    (key : String) (cur : JSVal) (action : SetStateAction)
    (h : (∃ e, resolveAction env opts iv key action = .error e)
       ∨ (∃ v e, resolveAction env opts iv key action = .ok v ∧ serializer opts v = .error e)
       ∨ (∃ v out e, resolveAction env opts iv key action = .ok v ∧
            serializer opts v = .ok out ∧
            envSetItem env key (coerceSetItemArg out) = .error e)) :
    setValue env opts iv key cur action =
      ⟨env, cur, [], (if IS_SERVER env then 1 else 0) + 1⟩ := by
  rcases h with ⟨e, h1⟩ | ⟨v, e, h1, h2⟩ | ⟨v, out, e, h1, h2, h3⟩
  · simp [setValue, h1]
  · simp [setValue, h1, h2]
  · simp [setValue, h1, h2, h3]

/-- C2 witness: a failing `setItem` leaves a concrete write without any
effect beyond the warning. -/
theorem setValue_failure_is_noop_witness :
    setValue envSetFails defaultOpts (.value (.num 0)) "k" (.num 7) (.value (.num 5)) =
      ⟨envSetFails, .num 7, [], 1⟩ :=
  setValue_failure_is_noop envSetFails defaultOpts (.value (.num 0)) "k" (.num 7)
    (.value (.num 5))
    (Or.inr (Or.inr ⟨.num 5, some "5", "setItem failed", rfl, rfl, rfl⟩))

/-- C3 counterexample: on the server (`window` absent) a write does NOT
update the local cached value and does NOT publish a notification — the
try block throws at the `window.sessionStorage` access and the catch
swallows everything — contrary to the claim that the cache is still
updated to `v` and a notification still published. -/
theorem server_write_no_side_effects_cex :
    (setValue envServer defaultOpts (.value (.num 0)) "k" (.num 0)
        (.value (.num 1))).storedValue = .num 0
    ∧ (setValue envServer defaultOpts (.value (.num 0)) "k" (.num 0)
        (.value (.num 1))).dispatched = []
    ∧ JSVal.num 0 ≠ JSVal.num 1 := by
  decide

/-- C3 (corrected): when the backing store is unavailable, `setValue`
logs the server warning but does not skip the storage write; the
attempted `window.sessionStorage` access throws, is caught with a second
warning, and neither the cache nor the storage nor the event stream
changes. -/
theorem setValue_server_noop (env : Env) (opts : Options) (iv : InitialValue)
    (key : String) (cur : JSVal) (action : SetStateAction)
    (h : IS_SERVER env = true) :
    setValue env opts iv key cur action = ⟨env, cur, [], 2⟩ := by
  have hw : env.window = false := by
    have := h
    unfold IS_SERVER at this
    simpa using this
  cases h1 : resolveAction env opts iv key action with
  | error e => simp [setValue, h1, h]
  | ok v =>
    cases h2 : serializer opts v with
    | error e => simp [setValue, h1, h2, h]
    | ok out =>
      have h3 : envSetItem env key (coerceSetItemArg out) = .error "window is not defined" := by
        simp [envSetItem, hw]
      simp [setValue, h1, h2, h3, h]

/-- C3 witness: a concrete server-side write is a state no-op with two
warnings. -/
theorem setValue_server_noop_witness :
    setValue envServer defaultOpts (.value (.num 0)) "k" (.num 3) (.value (.num 1)) =
      ⟨envServer, .num 3, [], 2⟩ :=
  setValue_server_noop envServer defaultOpts (.value (.num 0)) "k" (.num 3)
    (.value (.num 1)) rfl

/-- C4 (confirmed): `readValue` is total by type, and in every failure
mode — store unavailable, `getItem` throwing, key absent, or decoding
failing (a custom deserializer throwing, or a `JSON.parse` error under
the default codec) — it returns a fresh evaluation of the initial value
instead of propagating an exception. -/
theorem readValue_fallback_initial (env : Env) (opts : Options) (iv : InitialValue)
    (key : String)
    (h : env.window = false
       ∨ env.getThrows = true
       ∨ storeGet env.storage key = none
       ∨ (∃ raw, storeGet env.storage key = some raw ∧ raw ≠ "" ∧ decodeFails opts raw)) :
    readValue env opts iv key = evalInitial iv := by
  rcases h with h | h | h | ⟨raw, hl, hne, hdf⟩
  · simp [readValue, IS_SERVER, h]
  · cases hw : env.window with
    | false => simp [readValue, IS_SERVER, hw]
    | true => simp [readValue, IS_SERVER, hw, envGetItem, h]
  · cases hw : env.window with
    | false => simp [readValue, IS_SERVER, hw]
    | true =>
      cases hg : env.getThrows with
      | true => simp [readValue, IS_SERVER, hw, envGetItem, hg]
      | false => simp [readValue, IS_SERVER, hw, envGetItem, hg, h]
  · cases hw : env.window with
    | false => simp [readValue, IS_SERVER, hw]
    | true =>
      cases hg : env.getThrows with
      | true => simp [readValue, IS_SERVER, hw, envGetItem, hg]
      | false =>
        unfold decodeFails at hdf
        cases hd : opts.deserializer with
        | some d =>
          rw [hd] at hdf
          obtain ⟨e, he⟩ := hdf
          simp [readValue, IS_SERVER, hw, envGetItem, hg, hl, hne, deserializer, hd, he]
        | none =>
          rw [hd] at hdf
          obtain ⟨hu, hp⟩ := hdf
          simp [readValue, IS_SERVER, hw, envGetItem, hg, hl, hne, deserializer, hd, hu, hp]

/-- C4 witness: unparseable raw text under the default codec yields the
initial value. -/
theorem readValue_fallback_initial_witness :
    readValue ⟨true, [("k", "oops")], false, false⟩ defaultOpts (.value (.num 0)) "k" =
      .num 0 :=
  readValue_fallback_initial ⟨true, [("k", "oops")], false, false⟩ defaultOpts
    (.value (.num 0)) "k"
    (Or.inr (Or.inr (Or.inr ⟨"oops", rfl, by decide,
      show ("oops" ≠ "undefined" ∧ jsParse "oops" = none) from ⟨by decide, rfl⟩⟩)))

/-- C5 (confirmed): after a successful default-codec write of the JS
value `undefined`, the raw text stored under the key is the literal
string `undefined` (via `JSON.stringify(undefined)` being `undefined`
and `setItem` coercing it with `String()`), a subsequent read returns
the `undefined` sentinel, the notification is dispatched, and the
default deserializer short-circuits on the literal without consulting
`JSON.parse` or the initial value. -/
theorem undefined_sentinel_roundtrip (env : Env) (iv : InitialValue) (key : String)
    (cur : JSVal)
    (hw : env.window = true) (hs : env.setThrows = false) (hg : env.getThrows = false) :
    storeGet (setValue env defaultOpts iv key cur (.value .undef)).env.storage key =
      some "undefined"
    ∧ readValue (setValue env defaultOpts iv key cur (.value .undef)).env defaultOpts iv key =
      .undef
    ∧ (setValue env defaultOpts iv key cur (.value .undef)).dispatched = [key]
    ∧ (∀ iv2 : InitialValue, deserializer defaultOpts iv2 "undefined" = .ok .undef) := by
  have hser : serializer defaultOpts .undef = .ok none := rfl
  have hset := envSetItem_ok env key (coerceSetItemArg none) hw hs
  have hsv := setValue_value_ok env defaultOpts iv key cur .undef none _ hser hset hw
  rw [hsv]
  refine ⟨storeGet_cons_self _ _ _, ?_, rfl, fun iv2 => rfl⟩
  show readValue { env with storage := (key, coerceSetItemArg none) :: env.storage }
    defaultOpts iv key = JSVal.undef
  exact readValue_found
    { env with storage := (key, coerceSetItemArg none) :: env.storage }
    defaultOpts iv key "undefined" hw hg
    (storeGet_cons_self env.storage key (coerceSetItemArg none)) (by decide)

/-- C5 witness: a concrete write of `undefined` stores the literal text
and reads back as the sentinel. -/
theorem undefined_sentinel_roundtrip_witness :
    storeGet (setValue envOk defaultOpts (.value (.num 9)) "k" (.num 9)
        (.value .undef)).env.storage "k" = some "undefined"
    ∧ readValue (setValue envOk defaultOpts (.value (.num 9)) "k" (.num 9)
        (.value .undef)).env defaultOpts (.value (.num 9)) "k" = .undef
    ∧ (setValue envOk defaultOpts (.value (.num 9)) "k" (.num 9)
        (.value .undef)).dispatched = ["k"]
    ∧ (∀ iv2 : InitialValue, deserializer defaultOpts iv2 "undefined" = .ok .undef) :=
  undefined_sentinel_roundtrip envOk (.value (.num 9)) "k" (.num 9) rfl rfl rfl

/-- C1 counterexample: a successful default-codec write of a `Map` is
read back as the plain object of its entries, not as the `Map` itself —
the default decoder never reconstructs `Map`/`Set` — so the round-trip
law fails exactly where the claim extends it to `Map` and `Set`. -/
theorem map_roundtrip_cex :
    (setValue envOk defaultOpts (.value (.num 0)) "k" (.num 0)
        (.value (.map [("a", .num 1)]))).dispatched = ["k"]
    ∧ readValue (setValue envOk defaultOpts (.value (.num 0)) "k" (.num 0)
        (.value (.map [("a", .num 1)]))).env defaultOpts (.value (.num 0)) "k" =
      .obj [("a", .num 1)]
    ∧ JSVal.obj [("a", .num 1)] ≠ JSVal.map [("a", .num 1)] := by
  decide

/-- C1 (amended): a read immediately after a successful default-codec
write of `v`, with no intervening external mutation, returns the decode
of the store-coerced encode of `v` (`defaultRoundTrip`); this equals `v`
exactly when that composition fixes `v` — in particular a `Map` comes
back as the plain object of its entries and a `Set` as the plain array
of its elements. -/
theorem read_after_write_eq_roundtrip (env : Env) (iv : InitialValue) (key : String)
    (cur v : JSVal)
    (hw : env.window = true) (hs : env.setThrows = false) (hg : env.getThrows = false) :
    readValue (setValue env defaultOpts iv key cur (.value v)).env defaultOpts iv key =
      defaultRoundTrip iv v
    ∧ (setValue env defaultOpts iv key cur (.value v)).dispatched = [key] := by
  have hser := serializer_default_eq v
  have hset := envSetItem_ok env key (coerceSetItemArg (defaultSer v)) hw hs
  have hsv := setValue_value_ok env defaultOpts iv key cur v (defaultSer v) _ hser hset hw
  rw [hsv]
  refine ⟨?_, rfl⟩
  show readValue { env with storage := (key, defaultRaw v) :: env.storage }
    defaultOpts iv key = defaultRoundTrip iv v
  have hr := readValue_found
    { env with storage := (key, defaultRaw v) :: env.storage }
    defaultOpts iv key (defaultRaw v) hw hg
    (storeGet_cons_self env.storage key (defaultRaw v)) (defaultRaw_ne_empty v)
  rw [hr, defaultRoundTrip_eq]
  simp [decodeOrInit, deserializer_default_eq]

/-- C1 witness: the amended round-trip at a concrete JSON-stable value. -/
theorem read_after_write_eq_roundtrip_witness :
    readValue (setValue envOk defaultOpts (.value (.num 0)) "k" (.num 0)
        (.value (.num 5))).env defaultOpts (.value (.num 0)) "k" =
      defaultRoundTrip (.value (.num 0)) (.num 5)
    ∧ (setValue envOk defaultOpts (.value (.num 0)) "k" (.num 0)
        (.value (.num 5))).dispatched = ["k"] :=
  read_after_write_eq_roundtrip envOk (.value (.num 0)) "k" (.num 0) (.num 5) rfl rfl rfl

/-- Options with a constant custom deserializer, used to separate the
decode of an empty raw string from the initial-value fallback. -/
def optsConst42 : Options := ⟨none, some (fun _ => .ok (.num 42))⟩

/-- C6 counterexample: with the key present and bound to the empty
string, `readValue` returns the initial value even though decoding the
present raw string succeeds (with 42 here) — the source treats a falsy
raw as absent — contradicting the claim for "every present raw string,
including the empty string". -/
theorem empty_raw_bypasses_decode_cex :
    storeGet (⟨true, [("k", "")], false, false⟩ : Env).storage "k" = some ""
    ∧ deserializer optsConst42 (.value (.num 0)) "" = .ok (.num 42)
    ∧ readValue ⟨true, [("k", "")], false, false⟩ optsConst42 (.value (.num 0)) "k" =
      .num 0
    ∧ JSVal.num 0 ≠ JSVal.num 42 := by
  refine ⟨rfl, rfl, rfl, by decide⟩

/-- C6 (amended): after a read completes, the cached value equals the
decode of the stored raw string whenever the store get succeeds and the
key is present with a NONEMPTY raw string and decoding succeeds; a
present empty string is treated like an absent key and falls back to the
initial value (as do unavailability, get failure and decode failure). -/
theorem readValue_eq_decode_of_nonempty_raw (env : Env) (opts : Options)
    (iv : InitialValue) (key raw : String) (v : JSVal)
    (hw : env.window = true) (hg : env.getThrows = false)
    (hl : storeGet env.storage key = some raw) (hne : raw ≠ "")
    (hd : deserializer opts iv raw = .ok v) :
    readValue env opts iv key = v := by
  rw [readValue_found env opts iv key raw hw hg hl hne]
  simp [decodeOrInit, hd]

/-- C6 witness: a present nonempty raw string decodes and is returned. -/
theorem readValue_eq_decode_of_nonempty_raw_witness :
    readValue ⟨true, [("k", "7")], false, false⟩ defaultOpts (.value (.num 0)) "k" =
      .num 7 :=
  readValue_eq_decode_of_nonempty_raw ⟨true, [("k", "7")], false, false⟩ defaultOpts
    (.value (.num 0)) "k" "7" (.num 7) rfl rfl rfl (by decide) rfl

/-- C7 counterexample: an event carrying the empty-string key — a key
that differs from the bound key "k" — is NOT ignored: the guard tests
truthiness, the empty string is falsy, so the handler re-reads and the
cached value changes, contrary to the claim that any differing carried
key is ignored. -/
theorem empty_key_notification_not_ignored_cex :
    handleStorageChange ⟨true, [("k", "1")], false, false⟩ defaultOpts (.value (.num 0))
      "k" (.num 0) (some "") = .num 1
    ∧ ("" : String) ≠ "k"
    ∧ JSVal.num 1 ≠ JSVal.num 0 := by
  decide

/-- C7 (amended): a notification carrying a truthy (nonempty) key
different from the bound key is ignored, leaving the cached value
unchanged; a notification carrying the bound key, no key at all, or the
(falsy) empty-string key makes the handler re-run `readValue` and store
its result. -/
theorem handleStorageChange_key_filtering (env : Env) (opts : Options) (iv : InitialValue)
    (key : String) (cur : JSVal) (k : String)
    (h1 : k ≠ "") (h2 : k ≠ key) :
    handleStorageChange env opts iv key cur (some k) = cur
    ∧ handleStorageChange env opts iv key cur (some key) = readValue env opts iv key
    ∧ handleStorageChange env opts iv key cur none = readValue env opts iv key
    ∧ handleStorageChange env opts iv key cur (some "") = readValue env opts iv key := by
  refine ⟨?_, ?_, rfl, ?_⟩
  · simp [handleStorageChange, h1, h2]
  · simp [handleStorageChange]
  · simp [handleStorageChange]

/-- C7 witness: concrete filtering behavior on both channels' handler. -/
theorem handleStorageChange_key_filtering_witness :
    handleStorageChange envOk defaultOpts (.value (.num 0)) "k" (.num 7) (some "a") = .num 7
    ∧ handleStorageChange envOk defaultOpts (.value (.num 0)) "k" (.num 7) (some "k") =
      readValue envOk defaultOpts (.value (.num 0)) "k"
    ∧ handleStorageChange envOk defaultOpts (.value (.num 0)) "k" (.num 7) none =
      readValue envOk defaultOpts (.value (.num 0)) "k"
    ∧ handleStorageChange envOk defaultOpts (.value (.num 0)) "k" (.num 7) (some "") =
      readValue envOk defaultOpts (.value (.num 0)) "k" :=
  handleStorageChange_key_filtering envOk defaultOpts (.value (.num 0)) "k" (.num 7) "a"
    (by decide) (by decide)

/-- C8 (confirmed): with no custom serializer, a `Map` encodes as the
JSON text of the plain object of its entries, a `Set` as the JSON text
of the array of its elements, and any other value as its standard JSON
serialization. -/
theorem default_serializer_encoding (entries : List (String × JSVal)) (elems : List JSVal)
    (v : JSVal) (h : isMapOrSet v = false) :
    serializer defaultOpts (.map entries) = .ok (jsonStringify (.obj entries))
    ∧ serializer defaultOpts (.set elems) = .ok (jsonStringify (.arr elems))
    ∧ serializer defaultOpts v = .ok (jsonStringify v) := by
  refine ⟨rfl, rfl, ?_⟩
  cases v <;> first | rfl | simp [isMapOrSet] at h

/-- C8 witness: the three encoder branches at concrete values. -/
theorem default_serializer_encoding_witness :
    serializer defaultOpts (.map [("a", .num 1)]) =
      .ok (jsonStringify (.obj [("a", .num 1)]))
    ∧ serializer defaultOpts (.set [.num 2]) = .ok (jsonStringify (.arr [.num 2]))
    ∧ serializer defaultOpts (.num 3) = .ok (jsonStringify (.num 3)) :=
  default_serializer_encoding [("a", .num 1)] [.num 2] (.num 3) rfl

/-- C9 counterexample: writing the same `Set` twice leaves `read()`
returning the plain array of its elements, not the `Set` value written,
so the claim's `read() = v` clause fails under the default codec. -/
theorem double_write_set_read_cex :
    readValue (setValue
        (setValue envOk defaultOpts (.value (.num 0)) "k" (.num 0)
          (.value (.set [.num 1]))).env
        defaultOpts (.value (.num 0)) "k"
        (setValue envOk defaultOpts (.value (.num 0)) "k" (.num 0)
          (.value (.set [.num 1]))).storedValue
        (.value (.set [.num 1]))).env
      defaultOpts (.value (.num 0)) "k" = .arr [.num 1]
    ∧ JSVal.arr [.num 1] ≠ JSVal.set [.num 1] := by
  decide

/-- C9 (amended): two successive successful default-codec writes of the
same value leave the raw string stored for the key identical in content
after each write, each write dispatches its own notification, and a
subsequent read returns the decode of the encode of `v` (which equals
`v` exactly when the default codec round-trips it). -/
theorem double_write_raw_stable (env : Env) (iv : InitialValue) (key : String)
    (cur v : JSVal) (W1 W2 : WriteOut)
    (hw : env.window = true) (hs : env.setThrows = false) (hg : env.getThrows = false)
    (h1 : W1 = setValue env defaultOpts iv key cur (.value v))
    (h2 : W2 = setValue W1.env defaultOpts iv key W1.storedValue (.value v)) :
    storeGet W2.env.storage key = storeGet W1.env.storage key
    ∧ W1.dispatched = [key]
    ∧ W2.dispatched = [key]
    ∧ readValue W2.env defaultOpts iv key = defaultRoundTrip iv v := by
  have hser := serializer_default_eq v
  have hset1 := envSetItem_ok env key (coerceSetItemArg (defaultSer v)) hw hs
  have hsv1 := setValue_value_ok env defaultOpts iv key cur v (defaultSer v) _ hser hset1 hw
  have hset2 := envSetItem_ok
    { env with storage := (key, coerceSetItemArg (defaultSer v)) :: env.storage } key
    (coerceSetItemArg (defaultSer v)) hw hs
  have hsv2 := setValue_value_ok
    { env with storage := (key, coerceSetItemArg (defaultSer v)) :: env.storage }
    defaultOpts iv key v v (defaultSer v) _ hser hset2 hw
  subst h1
  subst h2
  rw [hsv1]
  dsimp only
  rw [hsv2]
  dsimp only
  refine ⟨by rw [storeGet_cons_self, storeGet_cons_self], rfl, rfl, ?_⟩
  have hr := readValue_found
    { env with storage := (key, coerceSetItemArg (defaultSer v)) ::
        (key, coerceSetItemArg (defaultSer v)) :: env.storage }
    defaultOpts iv key (defaultRaw v) hw hg
    (storeGet_cons_self _ key (coerceSetItemArg (defaultSer v)))
    (defaultRaw_ne_empty v)
  rw [hr, defaultRoundTrip_eq]
  simp [decodeOrInit, deserializer_default_eq]

/-- C9 witness: a concrete double write of the same number. -/
theorem double_write_raw_stable_witness :
    storeGet (setValue
        (setValue envOk defaultOpts (.value (.num 0)) "k" (.num 0) (.value (.num 5))).env
        defaultOpts (.value (.num 0)) "k"
        (setValue envOk defaultOpts (.value (.num 0)) "k" (.num 0)
          (.value (.num 5))).storedValue
        (.value (.num 5))).env.storage "k"
      = storeGet (setValue envOk defaultOpts (.value (.num 0)) "k" (.num 0)
          (.value (.num 5))).env.storage "k"
    ∧ (setValue envOk defaultOpts (.value (.num 0)) "k" (.num 0)
        (.value (.num 5))).dispatched = ["k"]
    ∧ (setValue
        (setValue envOk defaultOpts (.value (.num 0)) "k" (.num 0) (.value (.num 5))).env
        defaultOpts (.value (.num 0)) "k"
        (setValue envOk defaultOpts (.value (.num 0)) "k" (.num 0)
          (.value (.num 5))).storedValue
        (.value (.num 5))).dispatched = ["k"]
    ∧ readValue (setValue
        (setValue envOk defaultOpts (.value (.num 0)) "k" (.num 0) (.value (.num 5))).env
        defaultOpts (.value (.num 0)) "k"
        (setValue envOk defaultOpts (.value (.num 0)) "k" (.num 0)
          (.value (.num 5))).storedValue
        (.value (.num 5))).env
      defaultOpts (.value (.num 0)) "k" = defaultRoundTrip (.value (.num 0)) (.num 5) :=
  double_write_raw_stable envOk (.value (.num 0)) "k" (.num 0) (.num 5) _ _
    rfl rfl rfl rfl rfl

/-- C10 (confirmed): when a custom deserializer is supplied, the stored
literal text `undefined` is handed to it rather than short-circuiting to
the absent-value sentinel; the sentinel special case fires only under
the default codec. -/
theorem custom_deserializer_gets_literal (d : String → Except String JSVal)
    (sOpt : Option (JSVal → Except String String)) (iv iv2 : InitialValue) :
    deserializer ⟨sOpt, some d⟩ iv "undefined" = d "undefined"
    ∧ deserializer ⟨sOpt, none⟩ iv2 "undefined" = .ok .undef :=
  ⟨rfl, rfl⟩

end UseSessionStorage
